import Mathlib

/-!
Verification of the fixed-income return calculator in `main_app.py`.

The engine consists of the class `Investimento` (fields set in `__init__`,
the tax-bracket lookup `calcular_aliquota_ir`, and the return computation
`calcular_rentabilidade`) together with the three subclasses
`InvestimentoPreFixado`, `InvestimentoPosFixado` and `InvestimentoInflacao`.

Modelling choices:
* Python numbers are embedded as exact rationals (`ℚ`); calendar years and
  month counts are integers (`ℤ`).
* The derived fields `periodo_anos` and `periodo_meses` computed in
  `__init__` are modelled as functions of the stored fields.
* Python exceptions are modelled by an `Option` result.  The body of
  `calcular_rentabilidade` can raise `ZeroDivisionError` in exactly two
  places: the final division `rentabilidade_liquida / investimento_inicial`
  when `investimento_inicial == 0`, and the power
  `(1 + taxa_anual) ** periodo_anos` when the base is `0.0` and the
  exponent is negative (Python raises on `0.0 ** n` for `n < 0`).  Both
  are rendered as `none`.
* The accumulation loop `for mes in range(1, periodo_meses + 1)` is the
  sum over the integer interval `[1, periodo_meses]`, empty whenever
  `periodo_meses ≤ 0`, exactly like Python's `range`.
-/

/-- State of an `Investimento` object: the two constructor arguments and the
current year read from the wall clock at construction time (kept as an
explicit field so the embedding is deterministic). -/
structure Investimento where
  investimento_inicial : ℚ
  vencimento_ano : ℤ
  ano_atual : ℤ
deriving DecidableEq, Repr

/-- `self.periodo_anos = self.vencimento_ano - self.ano_atual`. -/
def Investimento.periodo_anos (inv : Investimento) : ℤ :=
  inv.vencimento_ano - inv.ano_atual

/-- `self.periodo_meses = self.periodo_anos * 12`. -/
def Investimento.periodo_meses (inv : Investimento) : ℤ :=
  inv.periodo_anos * 12

/-- `Investimento.calcular_aliquota_ir`: the regressive IR bracket as a
function of the number of months.  The method ignores `self`, so it is a
plain function here. -/
def calcular_aliquota_ir (meses : ℤ) : ℚ :=
  if meses ≤ 6 then 0.225
  else if meses ≤ 12 then 0.20
  else if meses ≤ 24 then 0.175
  else 0.15

/-- The dictionary returned by `calcular_rentabilidade`. -/
structure Resultado where
  valor : ℚ
  porcentagem : ℚ
deriving DecidableEq, Repr

/-- The local variable `rentabilidade_bruta` of the lump-sum branch:
compound interest when `tipo_juros == "composto"`, simple interest
otherwise.  The exponent `periodo_anos` is an integer and may be
negative (`zpow`). -/
def Investimento.rentabilidade_bruta (inv : Investimento) (taxa_anual : ℚ)
    (tipo_juros : String) : ℚ :=
  if tipo_juros = "composto" then
    inv.investimento_inicial * (1 + taxa_anual) ^ inv.periodo_anos -
      inv.investimento_inicial
  else
    inv.investimento_inicial * taxa_anual * (inv.periodo_anos : ℚ)

/-- The running total accumulated by the monthly-coupon loop
`for mes in range(1, periodo_meses + 1)`. -/
def Investimento.cupom_total (inv : Investimento) (taxa_anual : ℚ) : ℚ :=
  ∑ mes ∈ Finset.Icc (1 : ℤ) inv.periodo_meses,
    inv.investimento_inicial * (taxa_anual / 12 * (1 - calcular_aliquota_ir mes))

/-- `Investimento.calcular_rentabilidade`.  `none` models a Python
`ZeroDivisionError`: raised by `0.0 ** n` with `n < 0` in the compound
branch when `1 + taxa_anual == 0`, and by the final division when
`investimento_inicial == 0`. -/
def Investimento.calcular_rentabilidade (inv : Investimento) (taxa_anual : ℚ)
    (tipo_juros : String) (cupom_mensal : Bool) (tem_ir : Bool) :
    Option Resultado :=
  if cupom_mensal then
    let rentabilidade_liquida := inv.cupom_total taxa_anual
    if inv.investimento_inicial = 0 then none
    else some ⟨rentabilidade_liquida,
      rentabilidade_liquida / inv.investimento_inicial * 100⟩
  else if tipo_juros = "composto" ∧ 1 + taxa_anual = 0 ∧ inv.periodo_anos < 0 then
    none
  else
    let rentabilidade_liquida :=
      if tem_ir then
        inv.rentabilidade_bruta taxa_anual tipo_juros *
          (1 - calcular_aliquota_ir inv.periodo_meses)
      else
        inv.rentabilidade_bruta taxa_anual tipo_juros
    if inv.investimento_inicial = 0 then none
    else some ⟨rentabilidade_liquida,
      rentabilidade_liquida / inv.investimento_inicial * 100⟩

/-- `InvestimentoPreFixado` adds nothing: `calcular_rentabilidade` is
inherited unchanged from `Investimento`. -/
def InvestimentoPreFixado.calcular_rentabilidade (inv : Investimento)
    (taxa_anual : ℚ) (tipo_juros : String) (cupom_mensal : Bool)
    (tem_ir : Bool) : Option Resultado :=
  inv.calcular_rentabilidade taxa_anual tipo_juros cupom_mensal tem_ir

/-- `InvestimentoPosFixado.calcular_rentabilidade` delegates to
`super().calcular_rentabilidade` with the same arguments. -/
def InvestimentoPosFixado.calcular_rentabilidade (inv : Investimento)
    (taxa_anual : ℚ) (tipo_juros : String) (cupom_mensal : Bool)
    (tem_ir : Bool) : Option Resultado :=
  inv.calcular_rentabilidade taxa_anual tipo_juros cupom_mensal tem_ir

/-- `InvestimentoInflacao.calcular_rentabilidade` delegates to
`super().calcular_rentabilidade` with the same arguments. -/
def InvestimentoInflacao.calcular_rentabilidade (inv : Investimento)
    (taxa_anual : ℚ) (tipo_juros : String) (cupom_mensal : Bool)
    (tem_ir : Bool) : Option Resultado :=
  inv.calcular_rentabilidade taxa_anual tipo_juros cupom_mensal tem_ir

/-- C3: `calcular_aliquota_ir` is a total function on month counts that
returns `0.225` for `m ≤ 6`, `0.20` for `7 ≤ m ≤ 12`, `0.175` for
`13 ≤ m ≤ 24` and `0.15` for `m > 24`, with each upper boundary
inclusive. -/
theorem aliquota_ir_tiers (m : ℤ) :
    (m ≤ 6 → calcular_aliquota_ir m = 0.225) ∧
    (7 ≤ m → m ≤ 12 → calcular_aliquota_ir m = 0.20) ∧
    (13 ≤ m → m ≤ 24 → calcular_aliquota_ir m = 0.175) ∧
    (24 < m → calcular_aliquota_ir m = 0.15) := by
  unfold calcular_aliquota_ir
  refine ⟨?_, ?_, ?_, ?_⟩ <;> intros <;> split_ifs <;> first | rfl | omega

/-- Witness for C3: the boundary months 6, 12, 24 and the first month of
the last tier evaluate to the table values. -/
theorem aliquota_ir_tiers_witness :
    calcular_aliquota_ir 6 = 0.225 ∧ calcular_aliquota_ir 12 = 0.20 ∧
    calcular_aliquota_ir 24 = 0.175 ∧ calcular_aliquota_ir 25 = 0.15 :=
  ⟨(aliquota_ir_tiers 6).1 (by decide),
   (aliquota_ir_tiers 12).2.1 (by decide) (by decide),
   (aliquota_ir_tiers 24).2.2.1 (by decide) (by decide),
   (aliquota_ir_tiers 25).2.2.2 (by decide)⟩

/-- C6: the IR bracket is monotonically non-increasing in the month
count. -/
theorem aliquota_ir_antitone (m1 m2 : ℤ) (h0 : 0 ≤ m1) (h : m1 ≤ m2) :
    calcular_aliquota_ir m2 ≤ calcular_aliquota_ir m1 := by
  unfold calcular_aliquota_ir
  split_ifs <;> norm_num <;> omega

/-- Witness for C6: the bracket at 30 months is at most the bracket at 3
months. -/
theorem aliquota_ir_antitone_witness :
    calcular_aliquota_ir 30 ≤ calcular_aliquota_ir 3 :=
  aliquota_ir_antitone 3 30 (by decide) (by decide)

/-- C10: `calcular_aliquota_ir` is total over all integers: every
`m ≤ 6`, negative months included, yields `0.225`, and the result is
always one of `0.225`, `0.20`, `0.175`, `0.15`. -/
theorem aliquota_ir_total_int (m : ℤ) :
    (m ≤ 6 → calcular_aliquota_ir m = 0.225) ∧
    (calcular_aliquota_ir m = 0.225 ∨ calcular_aliquota_ir m = 0.20 ∨
     calcular_aliquota_ir m = 0.175 ∨ calcular_aliquota_ir m = 0.15) := by
  unfold calcular_aliquota_ir
  constructor
  · intro hm
    rw [if_pos hm]
  · split_ifs <;> simp

/-- Witness for C10: a negative month count yields the first-tier
bracket. -/
theorem aliquota_ir_total_int_witness :
    calcular_aliquota_ir (-5) = 0.225 :=
  (aliquota_ir_total_int (-5)).1 (by decide)

/-- Evaluation of the lump-sum branch away from the two raising inputs:
the result is the (optionally taxed) gross return paired with its
percentage of the principal. -/
theorem lump_sum_eval (inv : Investimento) (r : ℚ) (tipo : String)
    (tem_ir : Bool) (hp : inv.investimento_inicial ≠ 0)
    (hg : ¬(tipo = "composto" ∧ 1 + r = 0 ∧ inv.periodo_anos < 0)) :
    inv.calcular_rentabilidade r tipo false tem_ir =
      some ⟨(if tem_ir then
              inv.rentabilidade_bruta r tipo *
                (1 - calcular_aliquota_ir inv.periodo_meses)
            else inv.rentabilidade_bruta r tipo),
        (if tem_ir then
            inv.rentabilidade_bruta r tipo *
              (1 - calcular_aliquota_ir inv.periodo_meses)
          else inv.rentabilidade_bruta r tipo) /
          inv.investimento_inicial * 100⟩ := by
  unfold Investimento.calcular_rentabilidade
  simp only [Bool.false_eq_true, if_false, if_neg hg, if_neg hp]

/-- Evaluation of the monthly-coupon branch for a nonzero principal. -/
theorem coupon_eval (inv : Investimento) (r : ℚ) (tipo : String)
    (tem_ir : Bool) (hp : inv.investimento_inicial ≠ 0) :
    inv.calcular_rentabilidade r tipo true tem_ir =
      some ⟨inv.cupom_total r,
        inv.cupom_total r / inv.investimento_inicial * 100⟩ := by
  unfold Investimento.calcular_rentabilidade
  simp [hp]

/-- C1: with `cupom_mensal = False` the net value is the gross return
(`p * (1 + r) ^ n - p` compound, `p * r * n` simple) with the IR bracket
for `periodo_meses` applied exactly once to the whole gross when
`tem_ir`, and unchanged otherwise.  The hypotheses exclude the two
inputs on which the code raises `ZeroDivisionError` instead of
returning: zero principal, and `1 + r = 0` with a negative compound
exponent (where the claimed formula itself has no value). -/
theorem lump_sum_net_value (inv : Investimento) (r : ℚ) (tem_ir : Bool)
    (hp : inv.investimento_inicial ≠ 0)
    (hr : ¬(1 + r = 0 ∧ inv.periodo_anos < 0)) :
    (inv.calcular_rentabilidade r "composto" false tem_ir).map Resultado.valor =
      some (if tem_ir then
          (inv.investimento_inicial * (1 + r) ^ inv.periodo_anos -
              inv.investimento_inicial) *
            (1 - calcular_aliquota_ir inv.periodo_meses)
        else
          inv.investimento_inicial * (1 + r) ^ inv.periodo_anos -
            inv.investimento_inicial) ∧
    (inv.calcular_rentabilidade r "simples" false tem_ir).map Resultado.valor =
      some (if tem_ir then
          inv.investimento_inicial * r * (inv.periodo_anos : ℚ) *
            (1 - calcular_aliquota_ir inv.periodo_meses)
        else
          inv.investimento_inicial * r * (inv.periodo_anos : ℚ)) := by
  have h1 := lump_sum_eval inv r "composto" tem_ir hp
    (fun hc => hr ⟨hc.2.1, hc.2.2⟩)
  have h2 := lump_sum_eval inv r "simples" tem_ir hp
    (fun hc => absurd hc.1 (by decide))
  constructor
  · rw [h1]
    refine congrArg some ?_
    unfold Investimento.rentabilidade_bruta
    rw [if_pos rfl]
  · rw [h2]
    refine congrArg some ?_
    unfold Investimento.rentabilidade_bruta
    rw [if_neg (by decide : ¬("simples" : String) = "composto")]

/-- Witness for C1: the sample of the spec, `principal = 1000`,
`annualRate = 0.10`, `periodYears = 2`, no tax, yields a compound net
value of `210`. -/
theorem lump_sum_net_value_witness :
    ((Investimento.mk 1000 2026 2024).calcular_rentabilidade 0.10 "composto"
      false false).map Resultado.valor = some 210 := by
  have h := lump_sum_net_value ⟨1000, 2026, 2024⟩ 0.10 false (by norm_num)
    (by norm_num [Investimento.periodo_anos])
  rw [h.1]
  norm_num [Investimento.periodo_anos]

/-- C2: with `cupom_mensal = True` the net value is the plain sum over
months `1 .. periodo_meses` of `p * (r / 12) * (1 - bracket m)`, with no
compounding; and the per-formula instance of the spec,
`p = 1000, r = 0.12, M = 1`, sums to `7.75`. -/
theorem coupon_net_value (inv : Investimento) (r : ℚ) (tipo : String)
    (tem_ir : Bool) (hp : inv.investimento_inicial ≠ 0) :
    (inv.calcular_rentabilidade r tipo true tem_ir).map Resultado.valor =
      some (∑ mes ∈ Finset.Icc (1 : ℤ) inv.periodo_meses,
        inv.investimento_inicial * (r / 12) * (1 - calcular_aliquota_ir mes)) ∧
    ∑ mes ∈ Finset.Icc (1 : ℤ) 1,
        (1000 : ℚ) * (0.12 / 12) * (1 - calcular_aliquota_ir mes) = 7.75 := by
  constructor
  · rw [coupon_eval inv r tipo tem_ir hp]
    refine congrArg some ?_
    show inv.cupom_total r = _
    unfold Investimento.cupom_total
    exact Finset.sum_congr rfl fun mes _ => by ring
  · rw [Finset.Icc_self, Finset.sum_singleton]
    norm_num [calcular_aliquota_ir]

/-- Witness for C2: instantiating at a concrete one-year position with
nonzero principal, the month-1 coupon formula evaluates to `7.75`. -/
theorem coupon_net_value_witness :
    ∑ mes ∈ Finset.Icc (1 : ℤ) 1,
        (1000 : ℚ) * (0.12 / 12) * (1 - calcular_aliquota_ir mes) = 7.75 :=
  (coupon_net_value ⟨1000, 2025, 2024⟩ 0.12 "composto" true (by norm_num)).2

/-- C4: in the monthly-coupon path the `tem_ir` flag is read but never
used, so the result with `tem_ir = True` equals the result with
`tem_ir = False` for every position, rate and interest type. -/
theorem coupon_ignores_tem_ir (inv : Investimento) (r : ℚ) (tipo : String) :
    inv.calcular_rentabilidade r tipo true true =
      inv.calcular_rentabilidade r tipo true false := rfl

/-- C5: a position maturing in the current year (`periodo_meses = 0`)
returns net value `0` and net percentage `0` in every mode, for every
rate and both flags, whenever the principal is positive. -/
theorem zero_period_zero_return (inv : Investimento) (r : ℚ) (tipo : String)
    (cupom tem_ir : Bool) (hm : inv.periodo_meses = 0)
    (hp : 0 < inv.investimento_inicial) :
    inv.calcular_rentabilidade r tipo cupom tem_ir = some ⟨0, 0⟩ := by
  have hp0 : inv.investimento_inicial ≠ 0 := ne_of_gt hp
  have ha : inv.periodo_anos = 0 := by
    unfold Investimento.periodo_meses at hm
    omega
  unfold Investimento.calcular_rentabilidade Investimento.cupom_total
    Investimento.rentabilidade_bruta
  rw [hm, ha]
  simp [hp0]

/-- Witness for C5: a position created in 2026 maturing in 2026 returns
`{0, 0}` in compound coupon mode. -/
theorem zero_period_zero_return_witness :
    (Investimento.mk 1000 2026 2026).calcular_rentabilidade 0.10 "composto"
      true true = some ⟨0, 0⟩ :=
  zero_period_zero_return ⟨1000, 2026, 2026⟩ 0.10 "composto" true true
    (by decide) (by norm_num)

/-- C7: for a positive principal and a negative period, the coupon loop
runs zero iterations so the result is `{0, 0}`, and the simple-interest
gross return is negative whenever the rate is positive. -/
theorem negative_period_behavior (inv : Investimento) (r : ℚ) (tipo : String)
    (tem_ir : Bool) (hm : inv.periodo_meses < 0)
    (hp : 0 < inv.investimento_inicial) :
    inv.calcular_rentabilidade r tipo true tem_ir = some ⟨0, 0⟩ ∧
    (0 < r → inv.rentabilidade_bruta r "simples" < 0) := by
  have ha : inv.periodo_anos < 0 := by
    unfold Investimento.periodo_meses at hm
    omega
  constructor
  · have hempty : Finset.Icc (1 : ℤ) inv.periodo_meses = ∅ :=
      Finset.Icc_eq_empty (by omega)
    simp [Investimento.calcular_rentabilidade, Investimento.cupom_total,
      hempty, ne_of_gt hp]
  · intro hrpos
    unfold Investimento.rentabilidade_bruta
    rw [if_neg (by decide : ¬("simples" : String) = "composto")]
    have hcast : ((inv.periodo_anos : ℚ)) < 0 := by exact_mod_cast ha
    exact mul_neg_of_pos_of_neg (mul_pos hp hrpos) hcast

/-- Witness for C7: a position maturing in 2023 seen from 2024 returns
`{0, 0}` in coupon mode and has negative simple gross at a 10% rate. -/
theorem negative_period_behavior_witness :
    (Investimento.mk 1000 2023 2024).calcular_rentabilidade 0.10 "composto"
        true true = some ⟨0, 0⟩ ∧
    (Investimento.mk 1000 2023 2024).rentabilidade_bruta 0.10 "simples" < 0 := by
  have h := negative_period_behavior ⟨1000, 2023, 2024⟩ 0.10 "composto" true
    (by decide) (by norm_num)
  exact ⟨h.1, h.2 (by norm_num)⟩

/-- Counterexample to C8 as stated: the error branch is reachable with a
positive principal.  At `principal = 1 > 0`, `annualRate = -1`,
compound lump-sum mode and `periodo_anos = -1`, Python evaluates
`0.0 ** -1`, which raises `ZeroDivisionError`, modelled as `none`. -/
theorem positive_principal_division_error :
    (0 : ℚ) < 1 ∧
    (Investimento.mk 1 2023 2024).calcular_rentabilidade (-1) "composto"
      false true = none := by
  constructor
  · norm_num
  · unfold Investimento.calcular_rentabilidade
    simp only [Bool.false_eq_true, if_false]
    rw [if_pos]
    exact ⟨trivial, by norm_num, by decide⟩

/-- C8 (amended): the computation fails exactly on division by zero:
always when `investimento_inicial = 0` (every mode), and, with a nonzero
principal, exactly in compound lump-sum mode when `1 + taxa_anual = 0`
and the period is negative (`0.0 ** n` with `n < 0` also raises
`ZeroDivisionError`); it never raises elsewhere. -/
theorem failure_is_division_by_zero (inv : Investimento) (r : ℚ) (tipo : String)
    (cupom tem_ir : Bool) :
    (inv.investimento_inicial = 0 →
      inv.calcular_rentabilidade r tipo cupom tem_ir = none) ∧
    (inv.investimento_inicial ≠ 0 →
      (inv.calcular_rentabilidade r tipo cupom tem_ir = none ↔
        cupom = false ∧ tipo = "composto" ∧ 1 + r = 0 ∧
          inv.periodo_anos < 0)) := by
  cases cupom
  · constructor
    · intro h0
      simp [Investimento.calcular_rentabilidade, h0]
    · intro hp
      by_cases hg : tipo = "composto" ∧ 1 + r = 0 ∧ inv.periodo_anos < 0
      · simp [Investimento.calcular_rentabilidade, hg, hp]
      · simp [Investimento.calcular_rentabilidade, hg, hp]
  · constructor
    · intro h0
      simp [Investimento.calcular_rentabilidade, h0]
    · intro hp
      simp [Investimento.calcular_rentabilidade, hp]

/-- Witness for C8 (amended): with zero principal the compound lump-sum
computation raises (returns `none`). -/
theorem failure_is_division_by_zero_witness :
    (Investimento.mk 0 2026 2024).calcular_rentabilidade 0.10 "composto"
      false true = none :=
  (failure_is_division_by_zero ⟨0, 2026, 2024⟩ 0.10 "composto" false true).1 rfl

/-- C9: the three subclasses compute exactly as the base class on every
input: `InvestimentoPreFixado` inherits the method unchanged and
`InvestimentoPosFixado` / `InvestimentoInflacao` delegate to `super`
with the same arguments. -/
theorem subtypes_compute_identically (inv : Investimento) (r : ℚ)
    (tipo : String) (cupom tem_ir : Bool) :
    InvestimentoPreFixado.calcular_rentabilidade inv r tipo cupom tem_ir =
        inv.calcular_rentabilidade r tipo cupom tem_ir ∧
    InvestimentoPosFixado.calcular_rentabilidade inv r tipo cupom tem_ir =
        inv.calcular_rentabilidade r tipo cupom tem_ir ∧
    InvestimentoInflacao.calcular_rentabilidade inv r tipo cupom tem_ir =
        inv.calcular_rentabilidade r tipo cupom tem_ir :=
  ⟨rfl, rfl, rfl⟩
